import Mathlib

/-!
Verification development for the structured search-query parser
(src/static/app/components/searchSyntax/parser.tsx and the search-bar
utils module holding getValidOps). The token constructors, semantic
predicate layer, post-parse validator and public join API are embedded
as executable Lean definitions; external catalog helpers that are not
part of the sources are modelled as an abstract environment following
the specification.
-/

set_option maxHeartbeats 1000000

namespace SearchSyntax

/-- TermOperator enum from parser.tsx: the operator in a key value term. -/
inductive TermOperator where
  | default
  | greaterThanEqual
  | lessThanEqual
  | greaterThan
  | lessThan
  | equal
  | notEqual
deriving DecidableEq, Repr, Fintype

/-- FilterType enum from parser.tsx: the variant types a Token.Filter may have. -/
inductive FilterType where
  | text
  | textIn
  | date
  | specificDate
  | relativeDate
  | duration
  | numeric
  | numericIn
  | boolean
  | aggregateDuration
  | aggregatePercentage
  | aggregateNumeric
  | aggregateDate
  | aggregateRelativeDate
  | has
  | is
deriving DecidableEq, Repr, Fintype

/-- FieldKind from sentry/utils/fields: a key is either a plain field or a function. -/
inductive FieldKind where
  | field
  | function
deriving DecidableEq, Repr

/-- Token enum from parser.tsx, used by the filter type configuration to list
valid key and value token kinds. -/
inductive TokenKind where
  | spaces
  | filter
  | freeText
  | logicGroup
  | logicBoolean
  | keySimple
  | keyExplicitTag
  | keyAggregate
  | keyAggregateArgs
  | keyAggregateParam
  | valueIso8601Date
  | valueRelativeDate
  | valueDuration
  | valuePercentage
  | valueBoolean
  | valueNumber
  | valueText
  | valueNumberList
  | valueTextList
deriving DecidableEq, Repr

/-- Result of tokenKeySimple: source text, key value and quoted flag. -/
structure KeySimpleTok where
  text : String
  value : String
  quoted : Bool
deriving DecidableEq, Repr

/-- Result of tokenKeyAggregateParam. -/
structure KeyAggregateParamTok where
  text : String
  value : String
  quoted : Bool
deriving DecidableEq, Repr

/-- One entry of a KeyAggregateArgs args list: separator plus a possibly-null
parameter (the grammar list items may carry a null value). -/
structure AggregateArgItem where
  separator : String
  value : Option KeyAggregateParamTok
deriving DecidableEq, Repr

/-- Result of tokenKeyAggregateArgs. -/
structure KeyAggregateArgsTok where
  text : String
  args : List AggregateArgItem
deriving DecidableEq, Repr

/-- Result of tokenKeyAggregate: function name plus optional argument list. -/
structure KeyAggregateTok where
  text : String
  name : KeySimpleTok
  args : Option KeyAggregateArgsTok
deriving DecidableEq, Repr

/-- A filter key, one of the validKeys token shapes: simple, explicit tag
(tags[name]) or aggregate. -/
inductive FilterKey where
  | simple (key : KeySimpleTok)
  | explicitTag (text : String) (tagPrefix : String) (key : KeySimpleTok)
  | aggregate (key : KeyAggregateTok)
deriving DecidableEq, Repr

/-- Result of tokenValueText. -/
structure ValueTextTok where
  text : String
  value : String
  quoted : Bool
deriving DecidableEq, Repr

/-- Result of tokenValueNumber before the rawValue computation: source text,
digit string and unit suffix. -/
structure ValueNumberTok where
  text : String
  value : String
  unit : String
deriving DecidableEq, Repr

/-- A list item of ValueTextList or ValueNumberList; the value is null when
the grammar matched an empty slot. -/
structure InListItem (α : Type) where
  separator : String
  value : Option α
deriving DecidableEq, Repr

/-- The value subtree of a filter, one variant per value token kind. -/
inductive FilterValue where
  | text (v : ValueTextTok)
  | textList (text : String) (items : List (InListItem ValueTextTok))
  | number (v : ValueNumberTok)
  | numberList (text : String) (items : List (InListItem ValueNumberTok))
  | boolean (text : String) (value : Bool)
  | duration (text : String) (value : ℚ) (unit : String)
  | percentage (text : String) (value : ℚ)
  | iso8601Date (text : String) (value : String)
  | relativeDate (text : String) (value : ℚ) (sign : String) (unit : String)
deriving DecidableEq, Repr

/-- Source text spanned by a filter value node. -/
def FilterValue.textOf : FilterValue → String
  | .text v => v.text
  | .textList t _ => t
  | .number v => v.text
  | .numberList t _ => t
  | .boolean t _ => t
  | .duration t _ _ => t
  | .percentage t _ => t
  | .iso8601Date t _ => t
  | .relativeDate t _ _ _ => t

/-- InvalidFilter record from parser.tsx: a reason and an optional list of
expected filter types. -/
structure InvalidFilter where
  reason : String
  expectedType : Option (List FilterType)
deriving DecidableEq, Repr

/-- FieldDefinition subset used by the parser: the kind of the key and its
cataloged value type (none when the definition omits it). -/
structure FieldDefinition where
  kind : FieldKind
  valueType : Option String
deriving DecidableEq, Repr

/-- One option of a dropdown aggregate parameter. -/
structure DropdownOption where
  value : String
deriving DecidableEq, Repr

/-- The columnTypes of a column aggregate parameter: either a callable taking
the argument name and the dataType of the function definition, or a list of
allowed column types. -/
inductive ColumnTypes where
  | callable (f : String → Option String → Bool)
  | list (types : List String)

/-- AggregateParameter from sentry/utils/discover/fields: column, dropdown or
plain value parameter, each with a required flag. -/
inductive AggregateParameter where
  | column (required : Bool) (columnTypes : ColumnTypes)
  | dropdown (required : Bool) (options : List DropdownOption)
  | value (required : Bool) (dataType : String)

/-- Required flag of an aggregate parameter. -/
def AggregateParameter.required : AggregateParameter → Bool
  | .column r _ => r
  | .dropdown r _ => r
  | .value r _ => r

/-- An entry of the AGGREGATIONS table: the parameter schema of a function. -/
structure Aggregation where
  parameters : List AggregateParameter

/-- Modelled from the spec: the catalog helpers imported by parser.tsx are
not under src/ (getFieldDefinition from sentry/utils/fields; isMeasurement,
isSpanOperationBreakdownField, measurementType and AGGREGATIONS from
sentry/utils/discover/fields). The spec describes the catalog as supplied,
read-only, declarative metadata, so they are modelled as an abstract
environment of lookups. The isoNow field models the current ISO-8601
timestamp string computed for the invalid-date hint example. -/
structure Env where
  getFieldDefinition : String → Option FieldDefinition
  isMeasurement : String → Bool
  isSpanOperationBreakdownField : String → Bool
  measurementType : String → Option String
  AGGREGATIONS : String → Option Aggregation
  isoNow : String

/-- SearchConfig from parser.tsx; the JS Sets of key names are modelled as
lists queried by membership. -/
structure SearchConfig where
  allowBoolean : Bool
  booleanKeys : List String
  dateKeys : List String
  durationKeys : List String
  numericKeys : List String
  percentageKeys : List String
  textOperatorKeys : List String

/-- keyValidation.isNumeric from TokenConverter. -/
def isNumeric (env : Env) (cfg : SearchConfig) (key : String) : Bool :=
  cfg.numericKeys.contains key || env.isMeasurement key ||
    env.isSpanOperationBreakdownField key

/-- keyValidation.isBoolean from TokenConverter. -/
def isBoolean (cfg : SearchConfig) (key : String) : Bool :=
  cfg.booleanKeys.contains key

/-- keyValidation.isPercentage from TokenConverter. -/
def isPercentage (cfg : SearchConfig) (key : String) : Bool :=
  cfg.percentageKeys.contains key

/-- keyValidation.isDate from TokenConverter. -/
def isDate (cfg : SearchConfig) (key : String) : Bool :=
  cfg.dateKeys.contains key

/-- keyValidation.isDuration from TokenConverter. -/
def isDuration (env : Env) (cfg : SearchConfig) (key : String) : Bool :=
  cfg.durationKeys.contains key || env.isSpanOperationBreakdownField key ||
    env.measurementType key == some "duration"

/-- Modelled from the spec: getKeyName (searchSyntax/utils) is not under
src/. Per the data model and glossary, the name of a simple key is its value,
of an explicit tag the inner key value, and of an aggregate key the function
name. -/
def getKeyName : FilterKey → String
  | .simple k => k.value
  | .explicitTag _ _ k => k.value
  | .aggregate k => k.name.value

/-- Test getFieldDefinition(keyName)?.kind === FieldKind.FUNCTION as done in
predicateFilter and checkInvalidTextFilter. -/
def keyIsAggregate (env : Env) (keyName : String) : Bool :=
  (env.getFieldDefinition keyName).map FieldDefinition.kind == some FieldKind.function

/-- Argument list of a key when it has the aggregate shape (the source casts
the key and reads args?.args, which is undefined for non-aggregate keys). -/
def keyArgs : FilterKey → Option (List AggregateArgItem)
  | .aggregate k => k.args.map KeyAggregateArgsTok.args
  | _ => none

/-- The string a check is applied to for one aggregate argument:
arg?.value?.value ?? the empty string. -/
def aggregateArgParamName (arg : AggregateArgItem) : String :=
  match arg.value with
  | some p => p.value
  | none => ""

/-- checkAggregate helper inside predicateFilter: the check must hold of the
key name and, when an argument list is present, of some argument. -/
def checkAggregate (key : FilterKey) (check : String → Bool) : Bool :=
  check (getKeyName key) &&
    (match keyArgs key with
     | none => true
     | some args => args.any fun arg => check (aggregateArgParamName arg))

/-- predicateFilter from TokenConverter: decides during grammar alternation
whether a candidate filter variant is admissible for the given key. -/
def predicateFilter (env : Env) (cfg : SearchConfig) (type : FilterType)
    (key : FilterKey) : Bool :=
  let keyName := getKeyName key
  if keyIsAggregate env keyName then
    match type with
    | .aggregateDuration => checkAggregate key (isDuration env cfg)
    | .aggregateNumeric => true
    | .aggregateDate => true
    | .aggregatePercentage => true
    | .aggregateRelativeDate => true
    | .text => true
    | _ => false
  else
    match type with
    | .numeric => isNumeric env cfg keyName
    | .numericIn => isNumeric env cfg keyName
    | .duration => isDuration env cfg keyName
    | .boolean => isBoolean cfg keyName
    | .date => isDate cfg keyName
    | .relativeDate => isDate cfg keyName
    | .specificDate => isDate cfg keyName
    | _ => true

/-- predicateTextOperator from TokenConverter: a text filter may carry a
comparison operator only for keys listed in textOperatorKeys. -/
def predicateTextOperator (cfg : SearchConfig) (key : FilterKey) : Bool :=
  cfg.textOperatorKeys.contains (getKeyName key)

/-- Scan of the regex (^|[^\x5c])" from checkInvalidTextValue over the tail of
the string: a double quote whose preceding char is not a backslash. -/
def hasUnescapedQuoteAux (prev : Char) : List Char → Bool
  | [] => false
  | c :: rest => (c == '"' && prev != '\\') || hasUnescapedQuoteAux c rest

/-- Whether the string matches the unescaped-quote regex of
checkInvalidTextValue: a quote at the start, or one not preceded by a
backslash. -/
def hasUnescapedQuote (s : String) : Bool :=
  match s.data with
  | [] => false
  | c :: rest => c == '"' || hasUnescapedQuoteAux c rest

/-- checkInvalidTextValue from TokenConverter: text-value sanity checks. -/
def checkInvalidTextValue (value : ValueTextTok) : Option InvalidFilter :=
  if !value.quoted && hasUnescapedQuote value.value then
    some { reason := "Quotes must enclose text or be escaped", expectedType := none }
  else if !value.quoted && value.value == "" then
    some { reason := "Filter must have a value", expectedType := none }
  else
    none

/-- Invalid-duration hint message of checkInvalidTextFilter. -/
def invalidDurationMsg : String :=
  "Invalid duration. Expected number followed by duration unit suffix"

/-- Invalid-date hint message of checkInvalidTextFilter, parameterized by the
ISO timestamp example computed at validation time. -/
def invalidDateMsg (sample : String) : String :=
  "Invalid date format. Expected +/-duration (e.g. +1h) or ISO 8601-like (e.g. " ++
    sample.take 10 ++ " or " ++ sample ++ ")"

/-- Invalid-boolean hint message of checkInvalidTextFilter. -/
def invalidBooleanMsg : String :=
  "Invalid boolean. Expected true, 1, false, or 0."

/-- Invalid-number hint message of checkInvalidTextFilter. -/
def invalidNumberMsg : String :=
  "Invalid number. Expected number then optional k, m, or b suffix (e.g. 500k)"

/-- checkInvalidTextFilter from TokenConverter: validates filters that landed
as the Text fallback, emitting expected-type hints keyed on the cataloged key
type; explicit tags and function keys only get the text-value sanity check. -/
def checkInvalidTextFilter (env : Env) (cfg : SearchConfig) (key : FilterKey)
    (value : ValueTextTok) : Option InvalidFilter :=
  match key with
  | .explicitTag _ _ _ => checkInvalidTextValue value
  | _ =>
    let keyName := getKeyName key
    if !(keyIsAggregate env keyName) then
      if isDuration env cfg keyName then
        some { reason := invalidDurationMsg,
               expectedType := some [FilterType.duration] }
      else if isDate cfg keyName then
        some { reason := invalidDateMsg env.isoNow,
               expectedType := some [FilterType.date, FilterType.specificDate,
                                     FilterType.relativeDate] }
      else if isBoolean cfg keyName then
        some { reason := invalidBooleanMsg,
               expectedType := some [FilterType.boolean] }
      else if isNumeric env cfg keyName then
        some { reason := invalidNumberMsg,
               expectedType := some [FilterType.numeric, FilterType.numericIn] }
      else
        checkInvalidTextValue value
    else
      checkInvalidTextValue value

/-- checkInvalidInFilter from TokenConverter: an in-list is invalid when some
item has a null value. -/
def checkInvalidInFilter {α : Type} (items : List (InListItem α)) :
    Option InvalidFilter :=
  if items.any fun item => item.value.isNone then
    some { reason := "Lists should not have empty values", expectedType := none }
  else
    none

/-- Models the JS toLowerCase builtin by lowercasing each character. -/
def jsToLowerCase (s : String) : String :=
  ⟨s.data.map Char.toLower⟩

/-- The boolean stored by tokenValueBoolean: member of the list of the strings
1 and true after lowercasing. -/
def tokenValueBooleanValue (value : String) : Bool :=
  ["1", "true"].contains (jsToLowerCase value)

/-- Numeric value of a digit list, none when empty or a char is not a digit
(helper to model the JS Number conversion on grammar numeric literals). -/
def parseNatDigits (cs : List Char) : Option Nat :=
  if cs.isEmpty then none
  else
    cs.foldl
      (fun acc c =>
        acc.bind fun n => if c.isDigit then some (n * 10 + (c.toNat - 48)) else none)
      (some 0)

/-- Mantissa and fraction length of a decimal literal of the number grammar
rule (optional sign, integer digits, optional fraction digits), as a scaled
integer: the literal denotes mantissa divided by ten to the fraction length. -/
def jsDecimalParts (s : String) : Option (Int × Nat) :=
  let signed : Int × List Char :=
    match s.data with
    | '-' :: rest => (-1, rest)
    | '+' :: rest => (1, rest)
    | rest => (1, rest)
  let sign := signed.1
  let cs := signed.2
  let intPart := cs.takeWhile fun c => c != '.'
  match cs.dropWhile fun c => c != '.' with
  | [] => (parseNatDigits intPart).map fun n => (sign * n, 0)
  | _ :: fracPart =>
    if fracPart.any fun c => c == '.' then none
    else
      match parseNatDigits intPart, parseNatDigits fracPart with
      | some ip, some fp =>
        some (sign * (ip * 10 ^ fracPart.length + fp), fracPart.length)
      | _, _ => none

/-- Models the JS Number conversion on the decimal literals produced by the
number grammar rule. -/
def jsNumber (s : String) : Option ℚ :=
  (jsDecimalParts s).map fun p => (p.1 : ℚ) / (10 : ℚ) ^ p.2

/-- numberUnits table from parser.tsx. -/
def numberUnits (unit : String) : Option ℚ :=
  if unit == "b" then some 1000000000
  else if unit == "m" then some 1000000
  else if unit == "k" then some 1000
  else none

/-- rawValue computed by tokenValueNumber: Number(value) multiplied by the
unit factor, defaulting to 1 when the unit is not in numberUnits. -/
def tokenValueNumberRawValue (value : String) (unit : String) : Option ℚ :=
  (jsNumber value).map fun n => n * ((numberUnits unit).getD 1)

/-- Models isNaN(parseFloat(s)) from JS: parseFloat yields NaN exactly when
the trimmed input does not start with a decimal number or Infinity. -/
def parseFloatIsNaN (s : String) : Bool :=
  let cs : List Char :=
    match s.data.dropWhile fun c => c.isWhitespace with
    | '-' :: rest => rest
    | '+' :: rest => rest
    | rest => rest
  match cs with
  | [] => true
  | '.' :: c :: _ => !c.isDigit
  | ['.'] => true
  | c :: _ => !(c.isDigit || cs.take 8 == "Infinity".data)

/-- getValueType from parser.tsx: number when parseFloat succeeds on the
argument, string otherwise. -/
def getValueType (key : String) : String :=
  if !(parseFloatIsNaN key) then "number" else "string"

/-- JS falsiness of an optional string (undefined or the empty string). -/
def jsFalsyStr : Option String → Bool
  | none => true
  | some s => s.isEmpty

/-- Single quote character as a string, for building reason messages. -/
def sq : String := "\x27"

/-- validateAggregateParameterColumn from parser.tsx. -/
def validateAggregateParameterColumn (env : Env) (keyName : String)
    (columnTypes : ColumnTypes) (position : Nat) (parameterValue : String) :
    Option InvalidFilter :=
  let definition := env.getFieldDefinition keyName
  match columnTypes with
  | .callable f =>
    if !(f parameterValue (definition.bind FieldDefinition.valueType)) then
      some { reason := "Argument " ++ toString position ++ " is an invalid column type.",
             expectedType := none }
    else none
  | .list types =>
    match env.getFieldDefinition parameterValue with
    | none =>
      some { reason := keyName ++ " expects argument " ++ toString position ++
                       " to be a column.",
             expectedType := none }
    | some columnParameterFieldDefinition =>
      if !(types.any fun columnOrMetricType =>
            some columnOrMetricType == columnParameterFieldDefinition.valueType) then
        some { reason := keyName ++ " expects argument " ++ toString position ++
                         " to be a column of type: " ++
                         String.intercalate ", " types ++ ".",
               expectedType := none }
      else none

/-- validateAggregateParameter from parser.tsx: checks one provided argument
against the parameter definition of the aggregation at that position. -/
def validateAggregateParameter (env : Env) (keyName : String)
    (numExpectedArguments : Nat) (position : Nat)
    (parameterDefinition : Option AggregateParameter)
    (parameterValue : Option String) : Option InvalidFilter :=
  if (match parameterDefinition with
      | some pd => pd.required && jsFalsyStr parameterValue
      | none => false) || parameterDefinition.isNone then
    some { reason := keyName ++ " is expecting " ++ toString numExpectedArguments ++
                     " arguments.",
           expectedType := none }
  else if jsFalsyStr parameterValue then none
  else
    match parameterDefinition with
    | none => none
    | some pd =>
      let pv := parameterValue.getD ""
      match pd with
      | .column _ columnTypes =>
        validateAggregateParameterColumn env keyName columnTypes position pv
      | .dropdown _ options =>
        if (options.find? fun option => option.value == pv).isNone then
          some { reason := keyName ++ " expects argument " ++ toString position ++
                           " to be one of: " ++
                           String.intercalate ", "
                             (options.map fun option => sq ++ option.value ++ sq),
                 expectedType := none }
        else none
      | .value _ dataType =>
        if getValueType pv != dataType then
          some { reason := keyName ++ " expects arument " ++ toString position ++
                           " to be of type " ++ dataType,
                 expectedType := none }
        else none

/-- checkInvalidAggregateFilterValue from TokenConverter: value-type coherence
of an aggregate filter with the cataloged type of the function key. -/
def checkInvalidAggregateFilterValue (env : Env) (cfg : SearchConfig)
    (filterType : FilterType) (key : KeyAggregateTok) (value : FilterValue) :
    Option InvalidFilter :=
  let keyName := key.name.text
  let definition := env.getFieldDefinition keyName
  let wrongValueTypeReason : InvalidFilter :=
    { reason := sq ++ keyName ++ sq ++ " returns a " ++
        (match definition.bind FieldDefinition.valueType with
         | some vt => vt
         | none => "undefined") ++
        "; " ++ sq ++ value.textOf ++ sq ++ " is not valid here.",
      expectedType := none }
  match filterType with
  | .aggregateRelativeDate =>
    if !(isDate cfg keyName) then some wrongValueTypeReason else none
  | .aggregateDate =>
    if !(isDate cfg keyName) then some wrongValueTypeReason else none
  | .aggregateDuration =>
    if !(isDuration env cfg keyName) then some wrongValueTypeReason else none
  | .aggregatePercentage =>
    if !(isPercentage cfg keyName) then some wrongValueTypeReason else none
  | .aggregateNumeric =>
    if !(isNumeric env cfg keyName) then some wrongValueTypeReason else none
  | _ => none

/-- checkInvalidAggregateFilter from TokenConverter: value-type coherence,
then parameter arity and argument types against the AGGREGATIONS entry of the
function; unknown functions skip parameter validation. -/
def checkInvalidAggregateFilter (env : Env) (cfg : SearchConfig)
    (filterType : FilterType) (key : KeyAggregateTok) (value : FilterValue) :
    Option InvalidFilter :=
  let keyName := key.name.text
  match checkInvalidAggregateFilterValue env cfg filterType key value with
  | some invalidValueReason => some invalidValueReason
  | none =>
    match env.AGGREGATIONS keyName with
    | none => none
    | some aggregation =>
      let numExpectedArguments := aggregation.parameters.length
      let providedArgs : List AggregateArgItem :=
        match key.args with
        | some a => a.args
        | none => []
      let numProvidedArguments := providedArgs.length
      (List.range (max numExpectedArguments numProvidedArguments)).findSome?
        fun argIndex =>
          validateAggregateParameter env keyName numExpectedArguments (argIndex + 1)
            (aggregation.parameters.get? argIndex)
            ((providedArgs.get? argIndex).bind fun a =>
              a.value.map KeyAggregateParamTok.value)

/-- allOperators list from parser.tsx. -/
def allOperators : List TermOperator :=
  [.default, .greaterThanEqual, .lessThanEqual, .greaterThan, .lessThan, .equal,
   .notEqual]

/-- basicOperators list from parser.tsx. -/
def basicOperators : List TermOperator := [.default, .notEqual]

/-- textKeys list from parser.tsx. -/
def textKeys : List TokenKind := [.keySimple, .keyExplicitTag]

/-- One entry of the filterTypeConfig table. -/
structure FilterTypeConfigEntry where
  validKeys : List TokenKind
  validOps : List TermOperator
  validValues : List TokenKind
  canNegate : Bool
deriving DecidableEq, Repr

/-- filterTypeConfig table from parser.tsx: how each filter type operates. -/
def filterTypeConfig : FilterType → FilterTypeConfigEntry
  | .text => ⟨textKeys, basicOperators, [.valueText], true⟩
  | .textIn => ⟨textKeys, [], [.valueTextList], true⟩
  | .date => ⟨[.keySimple], allOperators, [.valueIso8601Date], false⟩
  | .specificDate => ⟨[.keySimple], [], [.valueIso8601Date], false⟩
  | .relativeDate => ⟨[.keySimple], [], [.valueRelativeDate], false⟩
  | .duration => ⟨[.keySimple], allOperators, [.valueDuration], true⟩
  | .numeric => ⟨[.keySimple], allOperators, [.valueNumber], true⟩
  | .numericIn => ⟨[.keySimple], [], [.valueNumberList], true⟩
  | .boolean => ⟨[.keySimple], basicOperators, [.valueBoolean], true⟩
  | .aggregateDuration => ⟨[.keyAggregate], allOperators, [.valueDuration], true⟩
  | .aggregateNumeric => ⟨[.keyAggregate], allOperators, [.valueNumber], true⟩
  | .aggregatePercentage => ⟨[.keyAggregate], allOperators, [.valuePercentage], true⟩
  | .aggregateDate => ⟨[.keyAggregate], allOperators, [.valueIso8601Date], true⟩
  | .aggregateRelativeDate =>
    ⟨[.keyAggregate], allOperators, [.valueRelativeDate], true⟩
  | .has => ⟨[.keySimple], basicOperators, [], true⟩
  | .is => ⟨[.keySimple], basicOperators, [.valueText], true⟩

/-- interchangeableFilterOperators object from parser.tsx: SpecificDate maps
to Date and Date to SpecificDate; every other lookup is undefined. -/
def interchangeableFilterOperators : FilterType → Option (List FilterType)
  | .specificDate => some [FilterType.date]
  | .date => some [FilterType.specificDate]
  | _ => none

/-- A Token.Filter result as assembled by tokenFilter. -/
structure FilterTok where
  text : String
  filter : FilterType
  key : FilterKey
  value : FilterValue
  operator : TermOperator
  negated : Bool
  invalid : Option InvalidFilter
deriving DecidableEq, Repr

/-- Helper for modelling a JS Set built from a list: keep the first occurrence
of each element, preserving insertion order. -/
def jsSetDedupAux {α : Type} [BEq α] (seen : List α) : List α → List α
  | [] => []
  | x :: xs =>
    if seen.contains x then jsSetDedupAux seen xs
    else x :: jsSetDedupAux (x :: seen) xs

/-- Spread of a JS Set built from a list. -/
def jsSetDedup {α : Type} [BEq α] (l : List α) : List α := jsSetDedupAux [] l

/-- getValidOps from the search-bar utils module: expected types (or the own
filter type), expanded with interchangeable types, mapped to their validOps
and collected into a set. -/
def getValidOps (filterToken : FilterTok) : List TermOperator :=
  let validTypes : List FilterType :=
    match filterToken.invalid with
    | some inv =>
      match inv.expectedType with
      | some ts => ts
      | none => [filterToken.filter]
    | none => [filterToken.filter]
  let interchangeableTypes : List (List FilterType) :=
    validTypes.map fun type => (interchangeableFilterOperators type).getD []
  let allValidTypes := jsSetDedup (validTypes ++ interchangeableTypes.flatten)
  jsSetDedup (allValidTypes.map fun type => (filterTypeConfig type).validOps).flatten

/-- A top-level term of a ParseResult, discriminated like the Token enum. -/
inductive QueryToken where
  | spaces (text : String) (value : String)
  | freeText (text : String) (value : String) (quoted : Bool)
  | logicBoolean (text : String) (value : String)
  | logicGroup (text : String) (inner : List QueryToken)
  | filter (text : String) (filterTok : FilterTok)

/-- Source text spanned by a term. -/
def QueryToken.text : QueryToken → String
  | .spaces t _ => t
  | .freeText t _ _ => t
  | .logicBoolean t _ => t
  | .logicGroup t _ => t
  | .filter t _ => t

/-- joinQuery from parser.tsx: empty or null input yields the empty string,
a single term yields its text, and otherwise the term texts are joined with
a space exactly when additionalSpaceBetween is set; leadingSpace prepends a
space to non-empty output. -/
def joinQuery (parsedTerms : Option (List QueryToken)) (leadingSpace : Bool)
    (additionalSpaceBetween : Bool) : String :=
  match parsedTerms with
  | none => ""
  | some [] => ""
  | some [p] => (if leadingSpace then " " else "") ++ p.text
  | some parsed =>
    (if leadingSpace then " " else "") ++
      String.intercalate (if additionalSpaceBetween then " " else "")
        (parsed.map QueryToken.text)

/-- parseSearch from parser.tsx, with the PEG grammar abstracted as a
function that either returns a ParseResult or signals a grammar-level error;
the try/catch converts the error into null. -/
def parseSearch (grammarParse : String → Except String (List QueryToken))
    (query : String) : Option (List QueryToken) :=
  match grammarParse query with
  | Except.ok result => some result
  | Except.error _ => none

/-- Modelled from the spec: the PEG grammar itself (grammar.pegjs) is not
under src/. The round-trip invariant of the spec states that concatenating
the text of every top-level node in order reconstructs the input exactly;
ParsesTo q ts says ts is a parse of q obeying that invariant. -/
def ParsesTo (q : String) (ts : List QueryToken) : Prop :=
  String.join (ts.map QueryToken.text) = q

/-- A minimal concrete environment: no cataloged field definitions, no
implicit key families, no aggregations. -/
def envEmpty : Env :=
  { getFieldDefinition := fun _ => none
    isMeasurement := fun _ => false
    isSpanOperationBreakdownField := fun _ => false
    measurementType := fun _ => none
    AGGREGATIONS := fun _ => none
    isoNow := "2026-10-12T00:00:00.000Z" }

/-- A concrete config cataloging transaction.duration as a duration key. -/
def cfgDuration : SearchConfig :=
  { allowBoolean := true
    booleanKeys := []
    dateKeys := []
    durationKeys := ["transaction.duration"]
    numericKeys := []
    percentageKeys := []
    textOperatorKeys := [] }

/-- Environment where p95 is cataloged as a duration-returning function. -/
def envP95 : Env :=
  { envEmpty with
    getFieldDefinition := fun k =>
      if k == "p95" then some ⟨FieldKind.function, some "duration"⟩ else none }

/-- Config where p95 itself is a duration key, as the default config builds
duration keys from duration-valued aggregations. -/
def cfgP95 : SearchConfig := { cfgDuration with durationKeys := ["p95"] }

/-- Config where both p95 and transaction.duration are duration keys. -/
def cfgP95TD : SearchConfig :=
  { cfgDuration with durationKeys := ["p95", "transaction.duration"] }

/-- The aggregate key p95(foo) with a non-duration column argument. -/
def keyP95Foo : FilterKey :=
  .aggregate ⟨"p95(foo)", ⟨"p95", "p95", false⟩,
    some ⟨"foo", [⟨"", some ⟨"foo", "foo", false⟩⟩]⟩⟩

/-- The aggregate key p95(transaction.duration). -/
def keyP95TD : FilterKey :=
  .aggregate ⟨"p95(transaction.duration)", ⟨"p95", "p95", false⟩,
    some ⟨"transaction.duration",
      [⟨"", some ⟨"transaction.duration", "transaction.duration", false⟩⟩]⟩⟩

/-- An in-list whose only item is present but holds empty unquoted text. -/
def itemsEmptyText : List (InListItem ValueTextTok) := [⟨"", some ⟨"", "", false⟩⟩]

/-- A parse result of the query foo bar: free text, spaces, free text. -/
def termsFooBar : List QueryToken :=
  [.freeText "foo" "foo" false, .spaces " " " ", .freeText "bar" "bar" false]

/-- Config cataloging count_unique as a numeric key. -/
def cfgCountUnique : SearchConfig :=
  { cfgDuration with durationKeys := [], numericKeys := ["count_unique"] }

/-- The aggregate key count_unique(foo). -/
def keyCountUniqueFoo : KeyAggregateTok :=
  ⟨"count_unique(foo)", ⟨"count_unique", "count_unique", false⟩,
    some ⟨"foo", [⟨"", some ⟨"foo", "foo", false⟩⟩]⟩⟩

/-- A valid Date filter token for event.timestamp. -/
def filterTokDate : FilterTok :=
  { text := "event.timestamp:>=2023-01-01"
    filter := FilterType.date
    key := FilterKey.simple ⟨"event.timestamp", "event.timestamp", false⟩
    value := FilterValue.iso8601Date "2023-01-01" "2023-01-01"
    operator := TermOperator.greaterThanEqual
    negated := false
    invalid := none }

theorem join_cons (b : String) (bs : List String) :
    String.join (b :: bs) = b ++ String.join bs := by
  apply String.ext
  simp

theorem intercalate_go_empty (bs : List String) : ∀ acc : String,
    String.intercalate.go acc "" bs = acc ++ String.join bs := by
  induction bs with
  | nil => intro acc; simp [String.intercalate.go, String.join]
  | cons b bs ih =>
    intro acc
    rw [String.intercalate.go, ih, join_cons, String.append_empty,
      String.append_assoc]

theorem intercalate_empty (l : List String) :
    String.intercalate "" l = String.join l := by
  cases l with
  | nil => rfl
  | cons x xs => rw [String.intercalate, intercalate_go_empty, join_cons]

/-- C1: for every query that parses successfully, joining the resulting AST
with default flags reproduces the query exactly, with no leading space and no
additional space between terms. -/
theorem joinQuery_roundtrip (q : String) (ts : List QueryToken)
    (h : ParsesTo q ts) : joinQuery (some ts) false false = q := by
  unfold ParsesTo at h
  cases ts with
  | nil => exact h
  | cons a ts2 =>
    cases ts2 with
    | nil =>
      show "" ++ a.text = q
      rw [String.empty_append]
      rw [List.map_cons, List.map_nil, join_cons, String.join,
        List.foldl_nil, String.append_empty] at h
      exact h
    | cons b rest =>
      show "" ++ String.intercalate "" ((a :: b :: rest).map QueryToken.text) = q
      rw [String.empty_append, intercalate_empty]
      exact h

/-- C1 witness: a concrete three-term parse of the query foo bar joins back
to the exact input. -/
theorem joinQuery_roundtrip_witness :
    joinQuery (some termsFooBar) false false = "foo bar" :=
  joinQuery_roundtrip "foo bar" termsFooBar (by unfold ParsesTo; decide)

/-- C3: parseSearch is a total function returning the full grammar result on
success, even when filters carry invalid annotations, and null exactly on
grammar-level failure; no exception escapes. -/
theorem parseSearch_total (g : String → Except String (List QueryToken))
    (q : String) :
    parseSearch g q = (g q).toOption ∧
      (parseSearch g q = none ↔ ∃ e, g q = Except.error e) := by
  cases h : g q with
  | ok r => simp [parseSearch, h, Except.toOption]
  | error e => simp [parseSearch, h, Except.toOption]

/-- C2 counterexample: p95 is a function key and isDuration holds of the key
name, so the claimed disjunctive condition is satisfied, yet predicateFilter
rejects the AggregateDuration variant for p95(foo) because no argument is a
duration. -/
theorem predicateFilter_aggregateDuration_cex :
    keyIsAggregate envP95 (getKeyName keyP95Foo) = true ∧
    isDuration envP95 cfgP95 (getKeyName keyP95Foo) = true ∧
    predicateFilter envP95 cfgP95 FilterType.aggregateDuration keyP95Foo = false :=
  ⟨by decide, by decide, by decide⟩

/-- C2 (amended): for a function key, the grammar predicate admits the
AggregateDuration variant exactly when isDuration holds of the key name and,
when an argument list is present, also of at least one argument. -/
theorem predicateFilter_aggregateDuration_characterization
    (env : Env) (cfg : SearchConfig) (key : FilterKey)
    (hagg : keyIsAggregate env (getKeyName key) = true) :
    predicateFilter env cfg FilterType.aggregateDuration key = true ↔
      (isDuration env cfg (getKeyName key) = true ∧
        (keyArgs key = none ∨
          ∃ args, keyArgs key = some args ∧
            ∃ arg ∈ args,
              isDuration env cfg (aggregateArgParamName arg) = true)) := by
  simp only [predicateFilter, hagg, if_true, checkAggregate, Bool.and_eq_true]
  cases h : keyArgs key with
  | none => simp
  | some args => simp [List.any_eq_true]

/-- C2 witness: for p95(transaction.duration) with both names cataloged as
duration, the amended characterization yields admission. -/
theorem predicateFilter_aggregateDuration_characterization_witness :
    predicateFilter envP95 cfgP95TD FilterType.aggregateDuration keyP95TD = true :=
  (predicateFilter_aggregateDuration_characterization envP95 cfgP95TD keyP95TD
      (by decide)).mpr
    ⟨by decide,
      Or.inr ⟨[⟨"", some ⟨"transaction.duration", "transaction.duration", false⟩⟩],
        by decide,
        ⟨"", some ⟨"transaction.duration", "transaction.duration", false⟩⟩,
        by decide, by decide⟩⟩

/-- C4: on a simple non-function key the Text-fallback validator emits the
structured expected-type hints in catalog priority order: duration keys get
the invalid-duration reason with expectedType Duration, then date, boolean
and numeric keys get their analogous hints, while explicit-tag keys receive
only the text-value sanity check. -/
theorem checkInvalidTextFilter_hints :
    (∀ (env : Env) (cfg : SearchConfig) (k : KeySimpleTok) (v : ValueTextTok),
      keyIsAggregate env k.value = false →
      isDuration env cfg k.value = true →
      checkInvalidTextFilter env cfg (FilterKey.simple k) v =
        some { reason := invalidDurationMsg,
               expectedType := some [FilterType.duration] }) ∧
    (∀ (env : Env) (cfg : SearchConfig) (k : KeySimpleTok) (v : ValueTextTok),
      keyIsAggregate env k.value = false →
      isDuration env cfg k.value = false →
      isDate cfg k.value = true →
      checkInvalidTextFilter env cfg (FilterKey.simple k) v =
        some { reason := invalidDateMsg env.isoNow,
               expectedType := some [FilterType.date, FilterType.specificDate,
                                     FilterType.relativeDate] }) ∧
    (∀ (env : Env) (cfg : SearchConfig) (k : KeySimpleTok) (v : ValueTextTok),
      keyIsAggregate env k.value = false →
      isDuration env cfg k.value = false →
      isDate cfg k.value = false →
      isBoolean cfg k.value = true →
      checkInvalidTextFilter env cfg (FilterKey.simple k) v =
        some { reason := invalidBooleanMsg,
               expectedType := some [FilterType.boolean] }) ∧
    (∀ (env : Env) (cfg : SearchConfig) (k : KeySimpleTok) (v : ValueTextTok),
      keyIsAggregate env k.value = false →
      isDuration env cfg k.value = false →
      isDate cfg k.value = false →
      isBoolean cfg k.value = false →
      isNumeric env cfg k.value = true →
      checkInvalidTextFilter env cfg (FilterKey.simple k) v =
        some { reason := invalidNumberMsg,
               expectedType := some [FilterType.numeric, FilterType.numericIn] }) ∧
    (∀ (env : Env) (cfg : SearchConfig) (t p : String) (kk : KeySimpleTok)
        (v : ValueTextTok),
      checkInvalidTextFilter env cfg (FilterKey.explicitTag t p kk) v =
        checkInvalidTextValue v) := by
  refine ⟨?_, ?_, ?_, ?_, ?_⟩
  · intro env cfg k v hagg hdur
    simp [checkInvalidTextFilter, getKeyName, hagg, hdur]
  · intro env cfg k v hagg hdur hdate
    simp [checkInvalidTextFilter, getKeyName, hagg, hdur, hdate]
  · intro env cfg k v hagg hdur hdate hbool
    simp [checkInvalidTextFilter, getKeyName, hagg, hdur, hdate, hbool]
  · intro env cfg k v hagg hdur hdate hbool hnum
    simp [checkInvalidTextFilter, getKeyName, hagg, hdur, hdate, hbool, hnum]
  · intro env cfg t p kk v
    simp [checkInvalidTextFilter]

/-- C4 witness: transaction.duration is a duration key with no field
definition, so a text filter on it gets the invalid-duration hint. -/
theorem checkInvalidTextFilter_hints_witness :
    checkInvalidTextFilter envEmpty cfgDuration
        (FilterKey.simple ⟨"transaction.duration", "transaction.duration", false⟩)
        ⟨"hello", "hello", false⟩ =
      some { reason := invalidDurationMsg,
             expectedType := some [FilterType.duration] } :=
  checkInvalidTextFilter_hints.1 envEmpty cfgDuration
    ⟨"transaction.duration", "transaction.duration", false⟩
    ⟨"hello", "hello", false⟩ (by decide) (by decide)

/-- C5: evaluation of the value-kind parameter check. A non-numeric argument
for a number-typed parameter is rejected, but the emitted reason text reads
arument where the documented message says argument; a numeric argument
passes. -/
theorem validateAggregateParameter_value_kind_eval :
    validateAggregateParameter envEmpty "apdex" 1 1
        (some (AggregateParameter.value true "number")) (some "abc") =
      some { reason := "apdex expects arument 1 to be of type number",
             expectedType := none } ∧
    validateAggregateParameter envEmpty "apdex" 1 1
        (some (AggregateParameter.value true "number")) (some "300") = none :=
  ⟨by decide, by decide⟩

/-- C6 counterexample: an in-list whose only item is present but empty
(empty unquoted text) passes the in-filter check, refuting the claim that a
null-or-empty item always yields the empty-values reason. -/
theorem checkInvalidInFilter_cex :
    (∃ it ∈ itemsEmptyText, ∃ v, it.value = some v ∧ v.value = "") ∧
    checkInvalidInFilter itemsEmptyText = none := by
  refine ⟨⟨⟨"", some ⟨"", "", false⟩⟩, ?_, ⟨"", "", false⟩, rfl, rfl⟩, rfl⟩
  simp [itemsEmptyText]

/-- C6 (amended): an in-list filter is invalid with the empty-values reason
exactly when some item value is null (a missing list slot); otherwise the
check passes, including for items that are present with empty text. -/
theorem checkInvalidInFilter_characterization {α : Type}
    (items : List (InListItem α)) :
    (checkInvalidInFilter items =
        some { reason := "Lists should not have empty values",
               expectedType := none } ↔
      ∃ it ∈ items, it.value = none) ∧
    (checkInvalidInFilter items = none ↔ ∀ it ∈ items, it.value ≠ none) := by
  unfold checkInvalidInFilter
  by_cases h : (items.any fun item => item.value.isNone) = true
  · rw [if_pos h]
    simp only [List.any_eq_true, Option.isNone_iff_eq_none] at h
    constructor
    · exact ⟨fun _ => h, fun _ => rfl⟩
    · constructor
      · intro hc; exact absurd hc (by simp)
      · intro hall
        obtain ⟨it, hmem, hnone⟩ := h
        exact absurd hnone (hall it hmem)
  · rw [if_neg h]
    simp only [List.any_eq_true, Option.isNone_iff_eq_none] at h
    push_neg at h
    constructor
    · constructor
      · intro hc; exact absurd hc (by simp)
      · intro hex
        obtain ⟨it, hmem, hnone⟩ := hex
        exact absurd hnone (h it hmem)
    · exact ⟨fun _ => h, fun _ => rfl⟩

/-- C7: the boolean stored for a boolean value token is true exactly when the
lowercased raw token is 1 or true; the tokens 0, false and FALSE give false,
and TRUE gives true. -/
theorem tokenValueBoolean_spec :
    (∀ s : String, tokenValueBooleanValue s = true ↔
      (jsToLowerCase s = "1" ∨ jsToLowerCase s = "true")) ∧
    tokenValueBooleanValue "0" = false ∧
    tokenValueBooleanValue "false" = false ∧
    tokenValueBooleanValue "FALSE" = false ∧
    tokenValueBooleanValue "TRUE" = true := by
  refine ⟨fun s => ?_, by decide, by decide, by decide, by decide⟩
  simp [tokenValueBooleanValue, List.contains, List.elem_cons, List.elem_nil]

/-- C8: the raw value of a number token is the numeric value of the digits
scaled by 1000 for the suffix k, 1000000 for m and 1000000000 for b, and is
the numeric value unchanged with no suffix. -/
theorem tokenValueNumber_rawValue_spec (value : String) (q : ℚ)
    (h : jsNumber value = some q) :
    tokenValueNumberRawValue value "k" = some (q * 1000) ∧
    tokenValueNumberRawValue value "m" = some (q * 1000000) ∧
    tokenValueNumberRawValue value "b" = some (q * 1000000000) ∧
    tokenValueNumberRawValue value "" = some q := by
  unfold tokenValueNumberRawValue
  rw [h]
  refine ⟨?_, ?_, ?_, ?_⟩ <;> simp [numberUnits]

/-- C8 witness: the token with digits 2.5 and suffix m has raw value
2500000. -/
theorem tokenValueNumber_rawValue_spec_witness :
    tokenValueNumberRawValue "2.5" "m" = some 2500000 := by
  have h : jsNumber "2.5" = some ((5 : ℚ) / 2) := by
    unfold jsNumber
    rw [show jsDecimalParts "2.5" = some (25, 1) from by decide]
    simp
    norm_num
  exact ((tokenValueNumber_rawValue_spec "2.5" ((5 : ℚ) / 2) h).2.1).trans
    (by norm_num)

/-- C9: for a valid (invalid null) filter token of type Date or SpecificDate,
getValidOps computes exactly the union of the validOps of Date and
SpecificDate, and for a valid token of any other filter type it computes
exactly that type's own validOps, so only the Date pair is merged. -/
theorem getValidOps_date_interchangeable :
    (∀ tok : FilterTok, tok.invalid = none →
      (tok.filter = FilterType.date ∨ tok.filter = FilterType.specificDate) →
      ∀ op, op ∈ getValidOps tok ↔
        (op ∈ (filterTypeConfig FilterType.date).validOps ∨
          op ∈ (filterTypeConfig FilterType.specificDate).validOps)) ∧
    (∀ tok : FilterTok, tok.invalid = none →
      tok.filter ≠ FilterType.date → tok.filter ≠ FilterType.specificDate →
      ∀ op, op ∈ getValidOps tok ↔
        op ∈ (filterTypeConfig tok.filter).validOps) := by
  constructor
  · intro tok hinv hft
    have hg : getValidOps tok = allOperators := by
      rcases hft with h | h <;> simp only [getValidOps, hinv, h] <;> rfl
    simp only [hg]
    decide
  · intro tok hinv hd hsd
    cases hft : tok.filter <;>
      first
        | exact absurd hft hd
        | exact absurd hft hsd
        | (simp only [getValidOps, hinv, hft]; decide)

/-- C9 witness: for the valid Date token, the equal operator is admitted and
the operator set is the merged one. -/
theorem getValidOps_date_interchangeable_witness :
    TermOperator.equal ∈ getValidOps filterTokDate ↔
      (TermOperator.equal ∈ (filterTypeConfig FilterType.date).validOps ∨
        TermOperator.equal ∈ (filterTypeConfig FilterType.specificDate).validOps) :=
  getValidOps_date_interchangeable.1 filterTokDate rfl (Or.inl rfl)
    TermOperator.equal

/-- C10: when the value-type coherence check passes and the function name has
no AGGREGATIONS entry, the aggregate filter validator performs no parameter
validation and returns null. -/
theorem checkInvalidAggregateFilter_unknownFn (env : Env) (cfg : SearchConfig)
    (filterType : FilterType) (key : KeyAggregateTok) (value : FilterValue)
    (hval : checkInvalidAggregateFilterValue env cfg filterType key value = none)
    (hagg : env.AGGREGATIONS key.name.text = none) :
    checkInvalidAggregateFilter env cfg filterType key value = none := by
  simp only [checkInvalidAggregateFilter, hval, hagg]

/-- C10 witness: count_unique is a numeric key with no AGGREGATIONS entry, so
an AggregateNumeric filter on count_unique(foo) validates to null. -/
theorem checkInvalidAggregateFilter_unknownFn_witness :
    checkInvalidAggregateFilter envEmpty cfgCountUnique
        FilterType.aggregateNumeric keyCountUniqueFoo
        (FilterValue.number ⟨"50", "50", ""⟩) = none :=
  checkInvalidAggregateFilter_unknownFn envEmpty cfgCountUnique
    FilterType.aggregateNumeric keyCountUniqueFoo
    (FilterValue.number ⟨"50", "50", ""⟩) (by decide) rfl

end SearchSyntax
